import Mathlib

/-!
Verification of the ABACIA edge-function substrate against its specification.

The definitions below are a shallow embedding of the TypeScript sources:
  * src/_shared/brain-client.ts  (MemoryStore: brainWrite, brainSearch)
  * src/_shared/trace.ts         (TraceRecorder: createTrace, logTrace)
  * src/unnamed/part_003         (air-client: escalateToREACH; VARA handler)
  * src/luke/index.ts            (LUKE handler: escalation call sites)
  * src/sage/index.ts            (SAGE: handleBackfill)
  * src/sync/index.ts            (SYNC: upstashSet, upstashGet, syncAgents,
                                  syncTraces, syncAll, restore)
  * src/shadow/index.ts          (SHADOW: runAudit trust score)

Modelling conventions: JS numbers that the code treats as integers are Int
(or Nat for counts and timestamps); ISO timestamp strings are carried as Nat
clock values supplied by the caller; fallible external calls (fetch, the
embedding API, the notification channel) are parameters of type
Except String _ so that one definition covers every transport outcome;
embedding vectors are List Int (no claim inspects an entry's value).
-/

namespace Abacia

/-- The BrainMemory interface of src/_shared/brain-client.ts (lines 12-22):
optional TS fields become Option. -/
structure BrainMemory where
  id : Option Nat
  content : String
  memory_type : String
  categories : List String
  importance : Option Int
  is_system : Bool
  source : Option String
  tags : List String
  embedding : Option (List Int)
deriving DecidableEq, Repr

/-- A stored row of the aba_memory table: the inserted record plus the
created_at / updated_at timestamps brainWrite sets (brain-client.ts lines
56-60). -/
structure MemoryRow where
  id : Nat
  content : String
  memory_type : String
  categories : List String
  importance : Option Int
  is_system : Bool
  source : Option String
  tags : List String
  embedding : Option (List Int)
  created_at : Nat
  updated_at : Nat
deriving DecidableEq, Repr

/-- The aba_memory table plus the id sequence the database uses for rows
inserted without an id. -/
structure BrainState where
  rows : List MemoryRow
  nextId : Nat
deriving DecidableEq, Repr

/-- brainWrite (src/_shared/brain-client.ts lines 49-66): inserts the record
with created_at and updated_at set to the current time, then returns the
stored row. The TS spread copies every field of the input unchanged — no
field, in particular importance, is transformed on the way in. A store
rejection throws in the source; the claims below are about the stored
record, so the success path is embedded. -/
def brainWrite (st : BrainState) (m : BrainMemory) (now : Nat) :
    BrainState × MemoryRow :=
  let row : MemoryRow :=
    { id := m.id.getD st.nextId,
      content := m.content,
      memory_type := m.memory_type,
      categories := m.categories,
      importance := m.importance,
      is_system := m.is_system,
      source := m.source,
      tags := m.tags,
      embedding := m.embedding,
      created_at := now,
      updated_at := now }
  ({ rows := st.rows ++ [row], nextId := st.nextId + 1 }, row)

/-- The order key of brainSearch's single order clause
(.order importance, ascending false). Under PostgREST descending order a
null importance sorts first, so none ranks at the top. impGe a b says: a
row with importance a is ranked at or before a row with importance b. -/
def impGe : Option Int → Option Int → Bool
  | none, _ => true
  | some _, none => false
  | some x, some y => decide (y ≤ x)

/-- The row ordering brainSearch requests from the engine. -/
def rowGe (a b : MemoryRow) : Prop := impGe a.importance b.importance = true

instance : DecidableRel rowGe := fun _ _ =>
  inferInstanceAs (Decidable (_ = true))

instance : IsTotal MemoryRow rowGe := by
  constructor
  intro a b
  unfold rowGe impGe
  rcases a.importance with _ | x <;> rcases b.importance with _ | y <;> simp <;> omega

instance : IsTrans MemoryRow rowGe := by
  constructor
  intro a b c
  unfold rowGe impGe
  rcases a.importance with _ | x <;> rcases b.importance with _ | y <;>
    rcases c.importance with _ | z <;> simp <;> omega

/-- brainSearch (src/_shared/brain-client.ts lines 68-82): text-search filter
(matching semantics delegated to the engine, hence the engineMatch
parameter), then order by importance descending — the one and only order
clause the source requests — then limit. Rows tied on importance are left
in engine (table) order: a stable sort models the single-key order-by. -/
def brainSearch (engineMatch : String → String → Bool) (table : List MemoryRow)
    (query : String) (limit : Nat) : List MemoryRow :=
  (List.insertionSort rowGe (table.filter (fun r => engineMatch r.content query))).take limit

/-- A concrete full-text matcher used for evaluating brainSearch on examples:
the query occurs as a contiguous substring of the content. -/
def charsHaveSub (needle : List Char) : List Char → Bool
  | [] => needle.isEmpty
  | c :: rest => needle.isPrefixOf (c :: rest) || charsHaveSub needle rest

/-- String form of the concrete matcher. -/
def textMatches (content query : String) : Bool :=
  charsHaveSub query.toList content.toList

/-- The TraceEntry of src/_shared/trace.ts (lines 12-18). The source's first
field is named "notation", a Lean keyword, so it is embedded here under the
name triple (the spec calls it the fixed triple). -/
structure TraceEntry where
  triple : String
  action : String
  result : String
  timestamp : Nat
  agent : String
deriving DecidableEq, Repr

/-- createTrace (src/_shared/trace.ts lines 20-37): a synchronous record
constructor. The TS result parameter defaults to "OK" when the caller omits
it; an omitted argument is embedded as none. The console.log side effect
carries no data and is dropped. -/
def createTrace (passer agent receiver action : String) (now : Nat)
    (result : Option String) : TraceEntry :=
  { triple := passer ++ "*" ++ agent ++ "*" ++ receiver,
    action := action,
    result := result.getD "OK",
    timestamp := now,
    agent := agent }

/-- The BrainMemory record logTrace writes (src/_shared/trace.ts lines
42-50). -/
def traceMemoryOf (t : TraceEntry) (now : Nat) : BrainMemory :=
  { id := none,
    content := "TRACE [" ++ toString t.timestamp ++ "]: " ++ t.triple ++ " | "
      ++ t.action ++ " | " ++ t.result,
    memory_type := "system",
    categories := ["trace", t.agent.toLower],
    importance := some 2,
    is_system := true,
    source := "trace_" ++ t.agent ++ "_" ++ toString now,
    tags := ["trace", "routing", t.agent.toLower],
    embedding := none }

/-- logTrace (src/_shared/trace.ts lines 39-54): best-effort brainWrite of the
trace record; its own failure is caught and logged, so the state either gains
the row or is unchanged. The success path appends the row. -/
def logTrace (st : BrainState) (t : TraceEntry) (now : Nat) : BrainState :=
  (brainWrite st (traceMemoryOf t now) now).fst

/- ------------------------------------------------------------------ -/
/- Theorems for claims C1 and C8                                       -/
/- ------------------------------------------------------------------ -/

/-- A write request whose importance (42) is far outside [1,10]. -/
def c1Memory : BrainMemory :=
  { id := none,
    content := "out of range importance",
    memory_type := "user",
    categories := [],
    importance := some 42,
    is_system := false,
    source := none,
    tags := [],
    embedding := none }

/-- The empty store. -/
def emptyBrain : BrainState := { rows := [], nextId := 0 }

/-- Claim C1 counterexample: brainWrite, given importance 42, stores
importance 42 — a value outside [1,10] — so the claimed clamp into [1,10]
does not happen. -/
theorem brainWrite_clamp_counterexample :
    ((brainWrite emptyBrain c1Memory 5).snd).importance = some 42 ∧
      ¬ ((1 : Int) ≤ 42 ∧ (42 : Int) ≤ 10) := by
  constructor
  · rfl
  · decide

/-- Claim C1 (amended): brainWrite stores the record's importance field
unchanged — no clamping into [1,10] is applied — while assigning created_at
and updated_at and appending the stored row to the table. -/
theorem brainWrite_stores_importance_unchanged
    (st : BrainState) (m : BrainMemory) (now : Nat) :
    ((brainWrite st m now).snd).importance = m.importance ∧
      ((brainWrite st m now).snd).created_at = now ∧
      ((brainWrite st m now).snd).updated_at = now ∧
      ((brainWrite st m now).fst).rows = st.rows ++ [(brainWrite st m now).snd] := by
  refine ⟨rfl, rfl, rfl, rfl⟩

/-- Claim C8: createTrace is a total pure construction; for every passer,
agent, receiver, action, clock value and optional result, the produced
TraceEntry has notation field (embedded as triple) exactly
passer ++ "*" ++ agent ++ "*" ++ receiver in that literal order, its result
field is "OK" when the result argument is omitted and the given string when
it is supplied, and its agent field is the originating agent. -/
theorem createTrace_pure_construction
    (passer agent receiver action : String) (now : Nat) (res : String) :
    (createTrace passer agent receiver action now none).triple
        = passer ++ "*" ++ agent ++ "*" ++ receiver ∧
      (createTrace passer agent receiver action now none).result = "OK" ∧
      (createTrace passer agent receiver action now (some res)).result = res ∧
      (createTrace passer agent receiver action now none).agent = agent ∧
      (createTrace passer agent receiver action now none).action = action ∧
      (createTrace passer agent receiver action now none).timestamp = now := by
  exact ⟨rfl, rfl, rfl, rfl, rfl, rfl⟩

/-- The escalation payload POSTed to the REACH endpoint. -/
structure EscPayload where
  urgency : Int
  message : String
  source : String
deriving DecidableEq, Repr

/-- escalateToREACH (src/unnamed/part_003 lines 61-73): one POST of
(urgency, message, source) to the REACH /api/escalate endpoint, with no
urgency threshold check and no try/catch — the function always performs
exactly one channel invocation and returns the transport's outcome
unchanged, so a fetch rejection propagates to the caller. The result is the
pair (outcome, list of channel invocations made). -/
def escalateToREACH (transport : EscPayload → Except String Unit)
    (urgency : Int) (message source : String) :
    Except String Unit × List EscPayload :=
  let p : EscPayload := { urgency := urgency, message := message, source := source }
  (transport p, [p])

/-- An extracted action item (src/luke/index.ts lines 64-69). The confidence
field, a float constant 0.8 that no further code reads, is not carried. -/
structure ActionItem where
  text : String
  type : String
  urgency : Int
deriving DecidableEq, Repr

/-- The LUKE per-item escalation step (src/luke/index.ts lines 158-167): the
urgency >= 8 threshold check lives here in the caller; escalateToREACH is
invoked only when it holds. Returns the step's outcome together with the
channel invocations it caused. -/
def lukeEscalateItem (transport : EscPayload → Except String Unit)
    (item : ActionItem) : Except String Unit × List EscPayload :=
  if 8 ≤ item.urgency then
    escalateToREACH transport item.urgency
      ("URGENT " ++ item.type.toUpper ++ ": " ++ item.text) "luke_extract"
  else (Except.ok (), [])

/-- The LUKE item loop (src/luke/index.ts lines 147-168) restricted to its
escalation effects (each item's brainWrite is modelled on the store success
path): items are processed in order, and an escalation rejection is not
caught inside the loop — it aborts the remaining items and propagates to the
handler's top-level catch, which turns the whole request into an error
response. On success the loop yields the channel invocations made. -/
def lukeProcessLoop (transport : EscPayload → Except String Unit) :
    List ActionItem → Except String (List EscPayload)
  | [] => Except.ok []
  | item :: rest =>
    match lukeEscalateItem transport item with
    | (Except.error e, _) => Except.error e
    | (Except.ok _, calls) =>
      match lukeProcessLoop transport rest with
      | Except.error e => Except.error e
      | Except.ok more => Except.ok (calls ++ more)

/- ------------------------------------------------------------------ -/
/- Theorems for claims C2 and C3                                       -/
/- ------------------------------------------------------------------ -/

/-- Claim C2 counterexample: with a failing notification transport,
escalateToREACH returns the transport error to its caller (nothing inside
the component catches it), and the LUKE loop processing one urgent item
aborts with that same error — the primary operation's outcome is changed,
contrary to the claim that such failures are caught internally and never
propagated. -/
theorem escalateToREACH_catch_counterexample :
    (escalateToREACH (fun _ => Except.error "network down") 8 "msg" "luke_extract").fst
        = Except.error "network down" ∧
      lukeProcessLoop (fun _ => Except.error "network down")
          [{ text := "call the bank", type := "call", urgency := 9 }]
        = Except.error "network down" :=
  ⟨rfl, rfl⟩

/-- Claim C2 (amended): escalateToREACH performs no catching at all — it
returns the transport outcome for its payload unchanged, so a transport
rejection propagates to the caller; and in the LUKE loop a failing channel
aborts at the first item that meets the threshold, changing the primary
outcome to an error. -/
theorem escalateToREACH_propagates_transport_failure
    (transport : EscPayload → Except String Unit) (urgency : Int)
    (message source err : String) (item : ActionItem) (rest : List ActionItem) :
    (escalateToREACH transport urgency message source).fst
        = transport { urgency := urgency, message := message, source := source } ∧
      lukeProcessLoop (fun _ => Except.error err) (item :: rest)
        = (if 8 ≤ item.urgency then Except.error err
           else lukeProcessLoop (fun _ => Except.error err) rest) := by
  constructor
  · rfl
  · by_cases h : 8 ≤ item.urgency
    · simp [lukeProcessLoop, lukeEscalateItem, escalateToREACH, h]
    · simp [lukeProcessLoop, lukeEscalateItem, h]
      rcases lukeProcessLoop (fun _ => Except.error err) rest with e | more <;> simp

/-- Claim C3 counterexample: a direct call to escalateToREACH with urgency 7
still invokes the notification channel — once, with the urgency-7 payload —
because the function itself applies no threshold; the claim that urgency 7
does not invoke the channel at all is false of the component. -/
theorem escalateToREACH_threshold_counterexample :
    ((escalateToREACH (fun _ => Except.ok ()) 7 "low urgency item" "luke_extract").snd).length
        = 1 ∧
      (escalateToREACH (fun _ => Except.ok ()) 7 "low urgency item" "luke_extract").snd
        = [{ urgency := 7, message := "low urgency item", source := "luke_extract" }] :=
  ⟨rfl, rfl⟩

/-- Claim C3 (amended): escalateToREACH itself invokes the channel exactly
once for every urgency (it contains no threshold); the urgency >= 8
threshold is enforced by the caller — LUKE's per-item escalation step
invokes the channel exactly once when the item's urgency meets 8 (so once
for urgency 8) and not at all below it (so never for urgency 7). -/
theorem escalation_threshold_in_caller
    (transport : EscPayload → Except String Unit) (urgency : Int)
    (message source : String) (item : ActionItem) :
    ((escalateToREACH transport urgency message source).snd).length = 1 ∧
      ((lukeEscalateItem transport item).snd).length
        = (if 8 ≤ item.urgency then 1 else 0) := by
  refine ⟨rfl, ?_⟩
  unfold lukeEscalateItem
  split <;> rfl

/- ------------------------------------------------------------------ -/
/- Theorems for claim C4                                               -/
/- ------------------------------------------------------------------ -/

/-- A matching record of importance 3 (older, listed first in the table). -/
def c4Row3 : MemoryRow :=
  { id := 1, content := "job alert: Acme", memory_type := "system",
    categories := [], importance := some 3, is_system := true, source := none,
    tags := ["job_alert"], embedding := none, created_at := 1, updated_at := 1 }

/-- A co-matching record of importance 7. -/
def c4Row7 : MemoryRow :=
  { id := 2, content := "job alert: Widget Co", memory_type := "system",
    categories := [], importance := some 7, is_system := true, source := none,
    tags := ["job_alert"], embedding := none, created_at := 2, updated_at := 2 }

/-- Two co-matching records tied on importance 5; the older one sits earlier
in the table. -/
def c4TieOld : MemoryRow :=
  { id := 3, content := "job fair downtown", memory_type := "system",
    categories := [], importance := some 5, is_system := true, source := none,
    tags := ["job_alert"], embedding := none, created_at := 10, updated_at := 10 }

/-- The newer of the two importance-5 records. -/
def c4TieNew : MemoryRow :=
  { id := 4, content := "job interview set", memory_type := "system",
    categories := [], importance := some 5, is_system := true, source := none,
    tags := ["job_alert"], embedding := none, created_at := 20, updated_at := 20 }

/-- Claim C4 counterexample: brainSearch orders by importance only — the
source requests no created_at tie-break — so two matches tied on importance
come back in engine (table) order: here the older record (created_at 10)
precedes the newer one (created_at 20), violating the claimed
most-recent-first tie-break. -/
theorem brainSearch_tiebreak_counterexample :
    brainSearch textMatches [c4TieOld, c4TieNew] "job" 10 = [c4TieOld, c4TieNew] ∧
      c4TieOld.importance = c4TieNew.importance ∧
      c4TieOld.created_at < c4TieNew.created_at ∧
      ¬ List.Pairwise (fun a b => a.importance = b.importance → b.created_at ≤ a.created_at)
        (brainSearch textMatches [c4TieOld, c4TieNew] "job" 10) := by
  refine ⟨by decide, by decide, by decide, ?_⟩
  decide

/-- Claim C4 (amended): brainSearch returns matches ranked by importance
descending — every returned record ranks at or above each later one under
the single importance order key, so a matching importance-7 record always
precedes a co-matching importance-3 record — but equal-importance matches
keep engine order; no created_at tie-break is applied. Concretely, searching
the two-record table with the importance-3 record first returns the
importance-7 record first. -/
theorem brainSearch_ranking
    (engineMatch : String → String → Bool) (table : List MemoryRow)
    (query : String) (limit : Nat) :
    List.Pairwise rowGe (brainSearch engineMatch table query limit) ∧
      brainSearch textMatches [c4Row3, c4Row7] "job" 10 = [c4Row7, c4Row3] := by
  constructor
  · exact List.Pairwise.sublist (List.take_sublist _ _)
      (List.sorted_insertionSort rowGe _)
  · decide

/- ------------------------------------------------------------------ -/
/- SAGE: embedding backfill (src/sage/index.ts)                        -/
/- ------------------------------------------------------------------ -/

/-- JS text.substring(0, n): the first n characters of the string
(generateEmbedding, src/sage/index.ts line 73, bounds its input this way). -/
def jsTruncate (s : String) (n : Nat) : String := String.mk (s.data.take n)

/-- One iteration of the backfill loop (src/sage/index.ts lines 146-157):
try to embed the row's content — the EmbeddingProvider is the embed
parameter, and generateEmbedding truncates its input to 8000 characters —
then on success write the vector back to the row by id and count the row as
processed; on failure log and skip, leaving the table and count unchanged.
The accumulator is (current table, processed so far). -/
def backfillStep (embed : String → Except String (List Int))
    (acc : List MemoryRow × Nat) (m : MemoryRow) : List MemoryRow × Nat :=
  match embed (jsTruncate m.content 8000) with
  | Except.ok v =>
    (acc.fst.map fun r => if r.id = m.id then { r with embedding := some v } else r,
      acc.snd + 1)
  | Except.error _ => acc

/-- The processed / total pair handleBackfill reports. -/
structure BackfillOutcome where
  processed : Nat
  total : Nat
deriving DecidableEq, Repr

/-- handleBackfill (src/sage/index.ts lines 133-168): select up to batchSize
rows whose embedding is null, run the per-row loop with its internal
try/catch, and report processed (successful embeds) and total (rows
selected). The selection query's own error throws before the batch starts
and is outside the loop being modelled; the batch itself is total. Returns
the report together with the updated table. -/
def handleBackfill (embed : String → Except String (List Int))
    (table : List MemoryRow) (batchSize : Nat) : BackfillOutcome × List MemoryRow :=
  let memories := (table.filter fun r => r.embedding.isNone).take batchSize
  let out := memories.foldl (backfillStep embed) (table, 0)
  ({ processed := out.snd, total := memories.length }, out.fst)

/-- The processed counter of the backfill loop counts exactly the rows whose
embedding call succeeds. -/
theorem backfillLoop_count (embed : String → Except String (List Int)) :
    ∀ (ms tbl : List MemoryRow) (k : Nat),
      (ms.foldl (backfillStep embed) (tbl, k)).snd
        = k + ms.countP (fun m => (embed (jsTruncate m.content 8000)).isOk) := by
  intro ms
  induction ms with
  | nil => intro tbl k; simp
  | cons m rest ih =>
    intro tbl k
    simp only [List.foldl_cons, List.countP_cons]
    rcases h : embed (jsTruncate m.content 8000) with e | v
    · have hs : backfillStep embed (tbl, k) m = (tbl, k) := by
        simp [backfillStep, h]
      rw [hs, ih]
      simp [h, Except.isOk, Except.toBool]
    · have hs : backfillStep embed (tbl, k) m
          = (tbl.map fun r => if r.id = m.id then { r with embedding := some v } else r,
              k + 1) := by
        simp [backfillStep, h]
      rw [hs, ih]
      simp [h, Except.isOk, Except.toBool]
      omega

/- ------------------------------------------------------------------ -/
/- Theorem for claim C5                                                -/
/- ------------------------------------------------------------------ -/

/-- A backfill-eligible row (embedding null) with the given id and content. -/
def c5Row (i : Nat) (c : String) : MemoryRow :=
  { id := i, content := c, memory_type := "system", categories := [],
    importance := some 5, is_system := true, source := none, tags := [],
    embedding := none, created_at := i, updated_at := i }

/-- Ten rows awaiting embeddings. -/
def c5Table : List MemoryRow :=
  [c5Row 0 "m0", c5Row 1 "m1", c5Row 2 "m2", c5Row 3 "m3", c5Row 4 "m4",
   c5Row 5 "m5", c5Row 6 "m6", c5Row 7 "m7", c5Row 8 "m8", c5Row 9 "m9"]

/-- An embedding provider that fails on exactly three of the ten contents. -/
def c5Embed (s : String) : Except String (List Int) :=
  if s = "m1" ∨ s = "m4" ∨ s = "m7" then Except.error "embedding call failed"
  else Except.ok [1]

/-- Claim C5: handleBackfill selects up to batchSize null-embedding rows and
reports processed ≤ total with total ≤ batchSize; processed counts exactly
the rows whose embedding call succeeded, so per-row failures are skipped
while the rest of the batch is still processed, and the loop itself raises
nothing (it is a total function of the oracle's outcomes). Concretely, with
10 selected rows of which 3 fail to embed it returns processed 7, total 10. -/
theorem handleBackfill_skips_failures (embed : String → Except String (List Int))
    (table : List MemoryRow) (batchSize : Nat) :
    ((handleBackfill embed table batchSize).fst).processed
        ≤ ((handleBackfill embed table batchSize).fst).total ∧
      ((handleBackfill embed table batchSize).fst).total ≤ batchSize ∧
      ((handleBackfill embed table batchSize).fst).processed
        = ((table.filter fun r => r.embedding.isNone).take batchSize).countP
            (fun m => (embed (jsTruncate m.content 8000)).isOk) ∧
      (handleBackfill c5Embed c5Table 10).fst = { processed := 7, total := 10 } := by
  have hcount :
      ((handleBackfill embed table batchSize).fst).processed
        = ((table.filter fun r => r.embedding.isNone).take batchSize).countP
            (fun m => (embed (jsTruncate m.content 8000)).isOk) := by
    simpa using backfillLoop_count embed
      ((table.filter fun r => r.embedding.isNone).take batchSize) table 0
  refine ⟨?_, ?_, hcount, by decide⟩
  · rw [hcount]
    exact List.countP_le_length _
  · show ((table.filter fun r => r.embedding.isNone).take batchSize).length ≤ batchSize
    simp [List.length_take]

/- ------------------------------------------------------------------ -/
/- SYNC: cache layer and sync coordinator (src/sync/index.ts)          -/
/- ------------------------------------------------------------------ -/

/-- The agents summary syncAgents builds (src/sync/index.ts lines 115-119);
its constant syncedTo list carries no data and is dropped. -/
structure AgentsState where
  timestamp : Nat
  agentCount : Nat
deriving DecidableEq, Repr

/-- The traces summary syncTraces builds (src/sync/index.ts lines 152-155). -/
structure TracesState where
  timestamp : Nat
  traceCount : Nat
deriving DecidableEq, Repr

/-- The aggregate syncAll returns (src/sync/index.ts lines 168-174). The
source's inputState field is the request state merged over an empty-object
default; an absent input is none. -/
structure SyncAggregate where
  timestamp : Nat
  agents : AgentsState
  traces : TracesState
  inputState : Option String
  upstashConnected : Bool
deriving DecidableEq, Repr

/-- The JSON documents the coordinator stores in the cache. -/
inductive CachePayload
  | agents (s : AgentsState)
  | traces (s : TracesState) (tail : List MemoryRow)
  | aggregate (a : SyncAggregate)
deriving DecidableEq, Repr

/-- A wire call upstashSet makes against the Upstash REST endpoint. -/
inductive CacheCall
  | set (key : String) (value : CachePayload)
  | expire (key : String) (ttl : Nat)
deriving DecidableEq, Repr

/-- upstashSet (src/sync/index.ts lines 61-83): returns false when the cache
is unconfigured; otherwise POSTs SET then, for a positive ttl, EXPIRE, all
inside one try/catch — any transport rejection is caught and logged and the
function returns false. It never throws into the caller. -/
def upstashSet (configured : Bool) (transport : CacheCall → Except String Unit)
    (key : String) (value : CachePayload) (ttl : Nat) : Bool :=
  if configured = false then false
  else
    match transport (CacheCall.set key value) with
    | Except.error _ => false
    | Except.ok _ =>
      if 0 < ttl then
        match transport (CacheCall.expire key ttl) with
        | Except.error _ => false
        | Except.ok _ => true
      else true

/-- upstashGet (src/sync/index.ts lines 85-99): null when the cache is
unconfigured; otherwise GET the key and return the parsed result field, with
an absent result — and, through the catch, any transport or parse failure —
yielding null. The wire response's result field is the Option inside the
Except. -/
def upstashGet (configured : Bool)
    (fetchGet : String → Except String (Option CachePayload)) (key : String) :
    Option CachePayload :=
  if configured = false then none
  else
    match fetchGet key with
    | Except.error _ => none
    | Except.ok none => none
    | Except.ok (some v) => some v

/-- The created_at-descending order syncTraces requests for the trace rows. -/
def caGe (a b : MemoryRow) : Prop := b.created_at ≤ a.created_at

instance : DecidableRel caGe := fun a b => Nat.decLe b.created_at a.created_at

instance : IsTotal MemoryRow caGe :=
  ⟨fun a b => (Nat.le_total b.created_at a.created_at).symm.symm⟩

instance : IsTrans MemoryRow caGe :=
  ⟨fun _ _ _ h1 h2 => Nat.le_trans h2 h1⟩

/-- The sync-log record syncAgents appends (src/sync/index.ts lines 125-133). -/
def syncAgentsMemory (agentCount : Nat) (now : Nat) : BrainMemory :=
  { id := none,
    content := "SYNC AGENTS [" ++ toString now ++ "]: " ++ toString agentCount
      ++ " agents synced",
    memory_type := "system",
    categories := ["sync", "agents"],
    importance := some 3,
    is_system := true,
    source := "sync_agents_" ++ toString now,
    tags := ["sync", "agents"],
    embedding := none }

/-- syncAgents (src/sync/index.ts lines 101-138): count the agent-registry
rows (importance-ordered, limit 100), cache the summary under the registry
key with a 300 second TTL, append the sync-log record and the routing trace
to the brain, and return the summary. The returned triple is (summary, brain
state after the appends, cache set results). -/
def syncAgents (configured : Bool) (transport : CacheCall → Except String Unit)
    (st : BrainState) (now : Nat) : AgentsState × BrainState × List Bool :=
  let trace := createTrace "AIR" "SYNC" "UPSTASH" "Syncing agent registry" now
    (some "SYNCING")
  let agentRecords :=
    (List.insertionSort rowGe (st.rows.filter fun r => r.memory_type == "aba_agents")).take 100
  let state : AgentsState := { timestamp := now, agentCount := agentRecords.length }
  let ok1 := upstashSet configured transport "aba:agents:registry"
    (CachePayload.agents state) 300
  let st1 := (brainWrite st (syncAgentsMemory agentRecords.length now) now).fst
  let st2 := logTrace st1
    { trace with result := toString agentRecords.length ++ " agents synced" } now
  (state, st2, [ok1])

/-- syncTraces (src/sync/index.ts lines 140-163): read the most recent 100
trace-tagged rows, cache the summary plus a 50-capped tail under the traces
key with a 600 second TTL, append the routing trace, and return the
summary. -/
def syncTraces (configured : Bool) (transport : CacheCall → Except String Unit)
    (st : BrainState) (now : Nat) : TracesState × BrainState × List Bool :=
  let trace := createTrace "AIR" "SYNC" "UPSTASH" "Syncing traces" now (some "SYNCING")
  let traces :=
    (List.insertionSort caGe (st.rows.filter fun r => r.tags.contains "trace")).take 100
  let state : TracesState := { timestamp := now, traceCount := traces.length }
  let ok1 := upstashSet configured transport "aba:traces:recent"
    (CachePayload.traces state (traces.take 50)) 600
  let st1 := logTrace st
    { trace with result := toString traces.length ++ " traces synced" } now
  (state, st1, [ok1])

/-- syncAll (src/sync/index.ts lines 165-182): run syncAgents then
syncTraces on the store state the former leaves behind, build the aggregate
from their summaries and the input state, cache it under the state key with
a 300 second TTL, and return it. Every cache interaction goes through
upstashSet, whose result is a Bool the source discards. -/
def syncAll (configured : Bool) (transport : CacheCall → Except String Unit)
    (st : BrainState) (input : Option String) (now : Nat) :
    SyncAggregate × BrainState × List Bool :=
  let trace := createTrace "CRON" "SYNC" "ALL" "Full sync starting" now (some "SYNCING")
  let a := syncAgents configured transport st now
  let t := syncTraces configured transport a.snd.fst now
  let results : SyncAggregate :=
    { timestamp := now, agents := a.fst, traces := t.fst,
      inputState := input, upstashConnected := configured }
  let ok3 := upstashSet configured transport "aba:state:current"
    (CachePayload.aggregate results) 300
  let st3 := logTrace t.snd.fst { trace with result := "Full sync complete" } now
  (results, st3, a.snd.snd ++ t.snd.snd ++ [ok3])

/-- restore (src/sync/index.ts lines 184-194): read the three well-known
cache keys through upstashGet and return whatever subset is present; the
routing trace is appended to the brain on the way out. -/
def restore (configured : Bool)
    (fetchGet : String → Except String (Option CachePayload))
    (st : BrainState) (now : Nat) :
    (Option CachePayload × Option CachePayload × Option CachePayload) × BrainState :=
  let trace := createTrace "BOOT" "SYNC" "UPSTASH" "Restoring state" now
    (some "RESTORING")
  let state := upstashGet configured fetchGet "aba:state:current"
  let agents := upstashGet configured fetchGet "aba:agents:registry"
  let traces := upstashGet configured fetchGet "aba:traces:recent"
  let st1 := logTrace st
    { trace with result := "Restored: state=" ++ toString state.isSome ++ " agents="
        ++ toString agents.isSome ++ " traces=" ++ toString traces.isSome } now
  ((state, agents, traces), st1)

/-- upstashGet yields null whenever the cache is unconfigured or no read of
the key can produce a present result (cold cache or failing transport). -/
theorem upstashGet_eq_none (configured : Bool)
    (fetchGet : String → Except String (Option CachePayload)) (key : String)
    (h : configured = false ∨ ∀ k v, fetchGet k ≠ Except.ok (some v)) :
    upstashGet configured fetchGet key = none := by
  rcases h with h | h
  · simp [upstashGet, h]
  · cases hc : configured with
    | false => simp [upstashGet]
    | true =>
      rcases hg : fetchGet key with e | ov
      · simp [upstashGet, hg]
      · rcases ov with _ | v
        · simp [upstashGet, hg]
        · exact absurd hg (h key v)

/- ------------------------------------------------------------------ -/
/- Theorems for claims C6 and C7                                       -/
/- ------------------------------------------------------------------ -/

/-- Claim C6: on a cold cache — every key absent, which also covers an
unconfigured or unreachable cache — restore returns null for state, agents
and traces; and it raises nothing, being a total function of the transport's
outcomes. -/
theorem restore_cold_cache_returns_nulls (configured : Bool)
    (fetchGet : String → Except String (Option CachePayload))
    (st : BrainState) (now : Nat)
    (h : configured = false ∨ ∀ k v, fetchGet k ≠ Except.ok (some v)) :
    (restore configured fetchGet st now).fst = (none, none, none) := by
  have h1 := upstashGet_eq_none configured fetchGet "aba:state:current" h
  have h2 := upstashGet_eq_none configured fetchGet "aba:agents:registry" h
  have h3 := upstashGet_eq_none configured fetchGet "aba:traces:recent" h
  simp [restore, h1, h2, h3]

/-- Claim C6 witness: a configured cache whose every read comes back empty
(cold cache) makes restore return the all-null triple. -/
theorem restore_cold_cache_witness :
    (restore true (fun _ => Except.ok none) emptyBrain 0).fst = (none, none, none) :=
  restore_cold_cache_returns_nulls true (fun _ => Except.ok none) emptyBrain 0
    (Or.inr (by intro k v hkv; simp at hkv))

/-- Claim C7: the aggregate syncAll returns does not depend on the cache
transport at all — two runs over any two transports (one of which may fail
every call) return the same aggregate — and its summaries are derived from
MemoryStore contents alone: the agent count is the 100-capped count of
agent-registry rows, and the trace count is the 100-capped count of
trace-tagged rows of the store state syncAgents leaves. A cache set over a
failing transport reports false, a Bool, and the three set attempts of a
fully failing sync report [false, false, false] — no exception enters the
sync flow, syncAll being a total function of the transport's outcomes. -/
theorem syncAll_cache_failure_tolerant (configured : Bool)
    (T Tp : CacheCall → Except String Unit) (st : BrainState)
    (input : Option String) (now : Nat) (err key : String)
    (value : CachePayload) (ttl : Nat) :
    (syncAll configured T st input now).fst = (syncAll configured Tp st input now).fst ∧
      ((syncAll configured T st input now).fst).agents.agentCount
        = min 100 ((st.rows.filter fun r => r.memory_type == "aba_agents").length) ∧
      ((syncAll configured T st input now).fst).traces.traceCount
        = min 100 ((((syncAgents configured T st now).snd.fst).rows.filter
            fun r => r.tags.contains "trace").length) ∧
      upstashSet configured (fun _ => Except.error err) key value ttl = false ∧
      (syncAll true (fun _ => Except.error err) st input now).snd.snd
        = [false, false, false] := by
  refine ⟨rfl, ?_, ?_, ?_, ?_⟩
  · show ((List.insertionSort rowGe
        (st.rows.filter fun r => r.memory_type == "aba_agents")).take 100).length = _
    rw [List.length_take, (List.perm_insertionSort rowGe _).length_eq]
  · show ((List.insertionSort caGe
        (((syncAgents configured T st now).snd.fst).rows.filter
          fun r => r.tags.contains "trace")).take 100).length = _
    rw [List.length_take, (List.perm_insertionSort caGe _).length_eq]
  · cases configured <;> simp [upstashSet]
  · simp [syncAll, syncAgents, syncTraces, upstashSet]

/- ------------------------------------------------------------------ -/
/- VARA: voice handler (src/unnamed/part_003)                          -/
/- ------------------------------------------------------------------ -/

/-- The VARARequest body (src/unnamed/part_003 lines 145-149): optional
fields are Option, the emotion kept as its string tag. -/
structure VaraReq where
  text : String
  emotion : Option String
  returnFormat : Option String
deriving DecidableEq, Repr

/-- addEmotionTags (src/unnamed/part_003 lines 152-165). -/
def addEmotionTags (text emotion : String) : String :=
  if emotion = "warm" then
    "<speak><prosody rate=\"95%\" pitch=\"-2%\">" ++ text ++ "</prosody></speak>"
  else if emotion = "excited" then
    "<speak><prosody rate=\"105%\" pitch=\"+3%\">" ++ text ++ "</prosody></speak>"
  else if emotion = "concerned" then
    "<speak><prosody rate=\"90%\" pitch=\"-3%\">" ++ text ++ "</prosody></speak>"
  else if emotion = "encouraging" then
    "<speak><prosody rate=\"100%\" pitch=\"+1%\">" ++ text ++ "</prosody></speak>"
  else text

/-- True when any of the given literal words occurs in the text. -/
def hasAnyOf (lower : String) (pats : List String) : Bool :=
  pats.any fun p => textMatches lower p

/-- detectEmotion (src/unnamed/part_003 lines 167-187): the source tests
case-insensitive alternations of literal words against the lowercased text,
which amounts to these substring tests. -/
def detectEmotion (text : String) : String :=
  if hasAnyOf text.toLower
      ["urgent", "problem", "issue", "error", "failed", "broken", "critical"]
  then "concerned"
  else if hasAnyOf text.toLower
      ["congratulations", "amazing", "excellent", "wonderful", "success",
       "completed", "done"]
  then "excited"
  else if hasAnyOf text.toLower
      ["you can", "keep going", "almost", "good job", "great work", "progress"]
  then "encouraging"
  else "warm"

/-- What the VARA handler replies: the HTTP status, the content type, and
the status field of the JSON body when the body is JSON (none for the raw
audio body). -/
structure VaraResponse where
  status : Nat
  contentType : String
  bodyStatus : Option String
deriving DecidableEq, Repr

/-- The VARA handler (src/unnamed/part_003 lines 229-315) as a function of
the parsed request and the ElevenLabs transport (yielding the audio byte
count on success): missing text replies JSON 400 with body status error
(lines 234-243); a failed speech call throws into the top-level catch, which
replies JSON 500 with body status error (lines 301-314); a successful call
replies JSON 200 when base64 output was requested (lines 286-290) and
otherwise the raw audio/mpeg bytes with HTTP 200 (lines 292-299). The
brainWrite, trace and AIR-report steps between are modelled on their success
paths; their failures land in the same 500 catch. -/
def varaServe (tts : String → Except String Nat) (req : VaraReq) : VaraResponse :=
  if req.text.length < 1 then
    { status := 400, contentType := "application/json", bodyStatus := some "error" }
  else
    match tts (addEmotionTags req.text (req.emotion.getD (detectEmotion req.text))) with
    | Except.error _ =>
      { status := 500, contentType := "application/json", bodyStatus := some "error" }
    | Except.ok _ =>
      if req.returnFormat = some "base64" then
        { status := 200, contentType := "application/json", bodyStatus := some "complete" }
      else
        { status := 200, contentType := "audio/mpeg", bodyStatus := none }

/- ------------------------------------------------------------------ -/
/- Theorems for claim C9                                               -/
/- ------------------------------------------------------------------ -/

/-- Claim C9 counterexample: the VARA handler answers a missing-text request
with HTTP 400 — neither the 200-equivalent nor the claimed 500-equivalent —
and answers a successful request without returnFormat base64 with a raw
audio/mpeg body, not JSON. -/
theorem vara_status_counterexample :
    varaServe (fun _ => Except.ok 3)
        { text := "", emotion := none, returnFormat := none }
      = { status := 400, contentType := "application/json", bodyStatus := some "error" } ∧
      varaServe (fun _ => Except.ok 3)
          { text := "hello there", emotion := some "warm", returnFormat := none }
        = { status := 200, contentType := "audio/mpeg", bodyStatus := none } := by
  constructor <;> rfl

/-- Claim C9 (amended): the VARA handler uses exactly the statuses 200, 400
and 500 — 400 exactly for the missing-text request, 500 with a JSON error
body for failures — and every body is JSON except the one deviation: a
successful request that did not ask for base64 gets the raw audio/mpeg
bytes. (The error JSON carries body status error, matching the error-object
shape; the claim fails only in VARA's extra 400 and its non-JSON audio
success body.) -/
theorem vara_response_shape (tts : String → Except String Nat) (req : VaraReq) :
    ((varaServe tts req).status = 200 ∨ (varaServe tts req).status = 400 ∨
        (varaServe tts req).status = 500) ∧
      ((varaServe tts req).status = 400 ↔ req.text.length < 1) ∧
      ((varaServe tts req).contentType = "audio/mpeg"
        ↔ (varaServe tts req).status = 200 ∧ req.returnFormat ≠ some "base64") ∧
      ((varaServe tts req).contentType = "application/json" ∨
        (varaServe tts req).contentType = "audio/mpeg") ∧
      ((varaServe tts req).bodyStatus = some "error"
        ↔ ((varaServe tts req).status = 400 ∨ (varaServe tts req).status = 500)) := by
  by_cases h1 : req.text.length < 1
  · simp [varaServe, h1]
  · rcases hm : tts (addEmotionTags req.text (req.emotion.getD (detectEmotion req.text)))
      with e | n
    · simp [varaServe, h1, hm]
    · by_cases h2 : req.returnFormat = some "base64"
      · simp [varaServe, h1, hm, h2]
      · simp [varaServe, h1, hm, h2]

/- ------------------------------------------------------------------ -/
/- SHADOW: silent audit (src/shadow/index.ts)                          -/
/- ------------------------------------------------------------------ -/

/-- One SHADOW health check result (src/shadow/index.ts lines 66-73),
carried as its name and pass flag; the claimed/reality/error strings and
the latency are narrative fields no claim reads. -/
structure SHADOWCheck where
  name : String
  pass : Bool
deriving DecidableEq, Repr

/-- The outcome of SHADOW's sixth check, the brain read (src/shadow/index.ts
lines 144-160): the select resolves with an array (pass), resolves with a
non-array (fail, and no penalty — the 15-point deduction sits only in the
catch branch), or throws (fail with the 15-point penalty). -/
inductive BrainReadOutcome
  | okRows
  | notRows
  | threw
deriving DecidableEq, Repr

/-- The SHADOWSnapshot (src/shadow/index.ts lines 75-81), hallucination
entries carried as their claim strings. -/
structure SHADOWSnapshot where
  timestamp : Nat
  cycleId : String
  checks : List SHADOWCheck
  hallucinations : List String
  trustScore : Int
deriving DecidableEq, Repr

/-- runAudit (src/shadow/index.ts lines 111-176) as a function of the six
check outcomes — the five endpoint probes and the brain read — and the
clock: trust starts at 100; each failed check subtracts its penalty in turn
(25, 25, 15, 10, 10, and 15 for a thrown brain read); a hallucination entry
is appended per failed check; the score is clamped below at 0 (line 173). -/
def runAudit (e1 e2 e3 e4 e5 : Bool) (b : BrainReadOutcome) (now : Nat) :
    SHADOWSnapshot :=
  let checks : List SHADOWCheck :=
    [{ name := "ABACIA_ALIVE", pass := e1 },
     { name := "REACH_ALIVE", pass := e2 },
     { name := "AIR_STATUS", pass := e3 },
     { name := "EMAIL_ENDPOINT", pass := e4 },
     { name := "OMI_MANIFEST", pass := e5 },
     { name := "BRAIN_READ", pass := b == BrainReadOutcome.okRows }]
  let trust : Int := 100
  let trust := if e1 then trust else trust - 25
  let trust := if e2 then trust else trust - 25
  let trust := if e3 then trust else trust - 15
  let trust := if e4 then trust else trust - 10
  let trust := if e5 then trust else trust - 10
  let trust :=
    match b with
    | BrainReadOutcome.threw => trust - 15
    | _ => trust
  { timestamp := now,
    cycleId := "shadow_" ++ toString now,
    checks := checks,
    hallucinations := (checks.filter fun c => !c.pass).map
      (fun c => c.name ++ " should be working"),
    trustScore := max 0 trust }

/- ------------------------------------------------------------------ -/
/- Theorem for claim C10                                               -/
/- ------------------------------------------------------------------ -/

/-- Claim C10: for every outcome of the six health checks the audit
snapshot's trustScore is an integer in [0, 100]; it equals 100 minus the
per-check penalties, clamped below at 0. -/
theorem runAudit_trustScore_range (e1 e2 e3 e4 e5 : Bool) (b : BrainReadOutcome)
    (now : Nat) :
    0 ≤ (runAudit e1 e2 e3 e4 e5 b now).trustScore ∧
      (runAudit e1 e2 e3 e4 e5 b now).trustScore ≤ 100 ∧
      (runAudit e1 e2 e3 e4 e5 b now).trustScore
        = max (0 : Int) ((100 : Int) - (if e1 then (0 : Int) else 25)
            - (if e2 then (0 : Int) else 25) - (if e3 then (0 : Int) else 15)
            - (if e4 then (0 : Int) else 10) - (if e5 then (0 : Int) else 10)
            - (match b with | BrainReadOutcome.threw => (15 : Int) | _ => 0)) := by
  cases e1 <;> cases e2 <;> cases e3 <;> cases e4 <;> cases e5 <;> cases b <;>
    simp [runAudit]

end Abacia
